import Mathlib

/-
Verification of the machine-learning-sandbox experiment harnesses.

The repository is orchestration glue around an external ML framework.  We give
a shallow embedding of the repository's own logic:

* Python dictionaries are association lists of `String` keys and `PyVal`
  values; the dictionary-literal merge `\x7b**default, **config\x7d` used by the
  constructors is `pyMerge`.
* Calls into the external framework (TensorFlow, matplotlib, PIL) are opaque:
  their results are supplied by oracle structures, and the calls the repository
  makes are recorded as events in a trace, in the order the source makes them.
* Fallible operations return `Except PyError` or `Option`.
-/

/-- Values stored in the Python configuration dictionaries of the repository.
Framework-owned handles (datasets, layers) are opaque `obj` values. -/
inductive PyVal where
  | none
  | bool (b : Bool)
  | int (n : Int)
  | float (q : ℚ)
  | str (s : String)
  | pair (a b : PyVal)
  | list (xs : List PyVal)
  | dict (entries : List (String × PyVal))
  | obj (tag : String) (args : List PyVal)

/-- A Python dictionary with string keys, as an association list. -/
abbrev Dict := List (String × PyVal)

/-- Lookup of a key in an association list (first matching entry wins). -/
def alookup {α : Type} : List (String × α) → String → Option α
  | [], _ => Option.none
  | (k, v) :: tl, key => if k = key then some v else alookup tl key

/-- Left-biased choice on options, used to state the dictionary-merge lemma. -/
def optOr {α : Type} (a b : Option α) : Option α :=
  match a with
  | some v => some v
  | Option.none => b

/-- Python dictionary merge `\x7b**d, **u\x7d`: entries of `u` override entries of
`d`; entries of `d` whose key does not occur in `u` are kept. -/
def pyMerge {α : Type} (d u : List (String × α)) : List (String × α) :=
  d.filter (fun p => (alookup u p.1).isNone) ++ u

/-- Default configuration of `ClassifierExperiment.__init__`
(src/image_classifier_experiment/classifier_experiment.py, lines 17-39). -/
def imageClassifierDefaultConfig : Dict :=
  [("EPOCHS", PyVal.int 10),
   ("input_shape", PyVal.pair (PyVal.int 28) (PyVal.int 28)),
   ("asset_opts", PyVal.dict
      [("save_assets", PyVal.bool false),
       ("dir", PyVal.str "./image_classifier_experiment/generated_plots/")]),
   ("dataset", PyVal.obj "tf.keras.datasets.fashion_mnist" []),
   ("custom_image_dir",
      PyVal.str "./image_classifier_experiment/custom images/fashion_mnist/*.jpg"),
   ("labels", PyVal.list [PyVal.int 0, PyVal.int 8, PyVal.int 8, PyVal.int 3, PyVal.int 2]),
   ("class_names", PyVal.list
      [PyVal.str "T-shirt/top", PyVal.str "Trouser", PyVal.str "Pullover",
       PyVal.str "Dress", PyVal.str "Coat", PyVal.str "Sandal", PyVal.str "Shirt",
       PyVal.str "Sneaker", PyVal.str "Bag", PyVal.str "Ankle boot"])]

/-- The configuration stored by `ClassifierExperiment.__init__`: the inputted
config takes precedence over the default (line 17). -/
def ClassifierExperiment.init (u : Dict) : Dict :=
  pyMerge imageClassifierDefaultConfig u

/-- Default configuration of `TextClassifierTrainer.__init__`
(src/text_binary_classifier_experiment/model/text_classifier.py, lines 16-24). -/
def textClassifierDefaultConfig : Dict :=
  [("batch_size", PyVal.int 32),
   ("seed", PyVal.int 42),
   ("validation_split", PyVal.float (1 / 5)),
   ("max_features", PyVal.int 10000),
   ("sequence_length", PyVal.int 250),
   ("EPOCHS", PyVal.int 10),
   ("checkpoint_dir", PyVal.str "./text_binary_classifier_experiment/cache/ckpt/")]

/-- The merged configuration computed by `TextClassifierTrainer.__init__`:
the second dictionary overwrites the first (line 16). -/
def TextClassifierTrainer.initConfig (u : Dict) : Dict :=
  pyMerge textClassifierDefaultConfig u

/-- The `definition` dictionary stored by `TextClassifierTrainer.__init__`
(lines 26-37): the data directory, the `TextVectorization` layer built from the
merged config, and the merged config itself. -/
def TextClassifierTrainer.init (data_dir : PyVal) (u : Dict) : Dict :=
  let config := TextClassifierTrainer.initConfig u
  let vectorize_layer := PyVal.obj "TextVectorization"
    [(alookup config "max_features").getD PyVal.none,
     PyVal.str "int",
     (alookup config "sequence_length").getD PyVal.none]
  [("data_dir", data_dir),
   ("vectorize_layer", vectorize_layer),
   ("config", PyVal.dict config)]

/-- Projection of a Python value to an integer, as the source requires where a
value is used as an epoch count. -/
def asInt : PyVal → Option Int
  | PyVal.int n => some n
  | _ => Option.none

/-- Projection of a Python value to a boolean. -/
def asBool : PyVal → Option Bool
  | PyVal.bool b => some b
  | _ => Option.none

/-- Projection of a Python value to a list. -/
def asList : PyVal → Option (List PyVal)
  | PyVal.list l => some l
  | _ => Option.none

/-- Projection of a Python value to a nested dictionary. -/
def asDict : PyVal → Option Dict
  | PyVal.dict d => some d
  | _ => Option.none

/-- The configuration fields `ClassifierExperiment._execute` reads from
`self.config`: the epoch count, the dataset handle, the custom-image labels and
the `save_assets` flag inside `asset_opts`. -/
structure ImgCfgView where
  EPOCHS : Int
  dataset : PyVal
  labels : List PyVal
  saveAssets : Bool

/-- Extraction of the fields `_execute` reads from a configuration dictionary;
fails when a field is missing or of the wrong shape. -/
def viewOf (cfg : Dict) : Option ImgCfgView :=
  ((alookup cfg "EPOCHS").bind asInt).bind fun e =>
  (alookup cfg "dataset").bind fun ds =>
  ((alookup cfg "labels").bind asList).bind fun ls =>
  (((alookup cfg "asset_opts").bind asDict).bind fun ao =>
      (alookup ao "save_assets").bind asBool).bind fun sa =>
  some ⟨e, ds, ls, sa⟩

/-- Values stored in the result dictionaries of `_execute`. -/
inductive RVal where
  | int (n : Int)
  | num (q : ℚ)

/-- A result dictionary of `_execute`. -/
abbrev ResDict := List (String × RVal)

/-- Which dataset a framework call targets inside `_execute`. -/
inductive Target where
  | test
  | custom

/-- The observable calls the repository makes into the ML framework, the
charting library and the file system, in source order. -/
inductive Event where
  | loadData (dataset : PyVal)
  | buildModel
  | fit (epochs : Int)
  | plotHistory
  | evaluate (t : Target)
  | predict (t : Target)
  | loadCustomImages
  | plotMulti (title : String)
  | savefig (title : String)
  | showPlot
  | saveCsv (title : String) (d : ResDict)
  | printOut (d : ResDict)
  | makedirs (dir : String)

/-- Events that load the training dataset, build the model or train it. -/
def isTrainingEvent : Event → Bool
  | Event.loadData _ => true
  | Event.buildModel => true
  | Event.fit _ => true
  | _ => false

/-- Events that only report results (console printing or CSV dumping). -/
def isReportingEvent : Event → Bool
  | Event.saveCsv _ _ => true
  | Event.printOut _ => true
  | _ => false

/-- The result dictionaries an event receives as payload. -/
def eventDicts : Event → List ResDict
  | Event.saveCsv _ d => [d]
  | Event.printOut d => [d]
  | _ => []

/-- Events recording a `fit` call. -/
def isFitEvent : Event → Bool
  | Event.fit _ => true
  | _ => false

/-- Corrective file-system actions (creating a missing resource). -/
def isCorrective : Event → Bool
  | Event.makedirs _ => true
  | _ => false

/-- The step of the spec overview an event belongs to: 0 = load dataset,
1 = build/compile model, 2 = fit/evaluate/predict (and consuming the ad-hoc
inference images), 3 = plot/save/report results. -/
def stepClass : Event → Nat
  | Event.loadData _ => 0
  | Event.buildModel => 1
  | Event.fit _ => 2
  | Event.evaluate _ => 2
  | Event.predict _ => 2
  | Event.loadCustomImages => 2
  | _ => 3

/-- Whether consecutive events never step backwards through the four steps of
the spec overview. -/
def stepsSortedB : List Event → Bool
  | a :: b :: t => decide (stepClass a ≤ stepClass b) && stepsSortedB (b :: t)
  | _ => true

/-- The result dictionary built at lines 82-86 and 121-125 of
classifier_experiment.py: the configured epoch count and the loss and accuracy
returned by the evaluate call. -/
def mkResultDict (epochs : Int) (loss acc : ℚ) : ResDict :=
  [("EPOCHS", RVal.int epochs), ("loss", RVal.num loss), ("accuracy", RVal.num acc)]

/-- Events of `ClassifierExperiment.__print_plot` (lines 183-191): save the
figure when `save_assets` is set, then show it.  It performs no corrective
file-system action. -/
def ClassifierExperiment.print_plot (save_assets : Bool) (title : String) : List Event :=
  (if save_assets then [Event.savefig title] else []) ++ [Event.showPlot]

/-- Events of `ClassifierExperiment.__print_dict` (lines 193-206): dump the
dictionary to a CSV file when `save_assets` is set, then print it. -/
def ClassifierExperiment.print_dict (save_assets : Bool) (title : String) (d : ResDict) :
    List Event :=
  (if save_assets then [Event.saveCsv title d] else []) ++ [Event.printOut d]

/-- Events of `ClassifierExperiment.__plot_multi_predictions` (lines 163-181):
draw the prediction grid, then save/show it via `__print_plot`. -/
def ClassifierExperiment.plot_multi_predictions (save_assets : Bool) (title : String) :
    List Event :=
  Event.plotMulti title :: ClassifierExperiment.print_plot save_assets title

/-- Results the external framework reports to `_execute`: the loss/accuracy
pairs of the two evaluate calls, and the number of keys of the training
history. -/
structure ImageEvalOracle where
  testLoss : ℚ
  testAcc : ℚ
  customLoss : ℚ
  customAcc : ℚ
  historyLen : Nat

/-- The accuracy metric reported by the framework's evaluate call, modelled as
the proportion of correct predictions (the framework's accuracy metrics are
means of per-sample 0/1 indicators). -/
def accuracyOf (results : List Bool) : ℚ :=
  (results.count true : ℚ) / (results.length : ℚ)

/-- An evaluation oracle whose accuracy values are proportions of correct
predictions over the test and custom images. -/
def oracleOf (testCorrect customCorrect : List Bool) (lt lc : ℚ) (h : Nat) :
    ImageEvalOracle :=
  ⟨lt, accuracyOf testCorrect, lc, accuracyOf customCorrect, h⟩

/-- The body of `ClassifierExperiment._execute` (lines 45-128): the trace of
framework/charting/file calls in source order, and the returned pair of result
dictionaries.  `TRAINER.run()` (build the model, then fit it) is modelled from
the spec: `ImageClassifierTrainer` and the `TFTrainer` base class are not under
src/; per the spec it constructs a model graph with framework primitives and
calls the framework's fit. -/
def ClassifierExperiment.execute (v : ImgCfgView) (o : ImageEvalOracle) :
    List Event × (ResDict × ResDict) :=
  let testDict := mkResultDict v.EPOCHS o.testLoss o.testAcc
  let customDict := mkResultDict v.EPOCHS o.customLoss o.customAcc
  ([Event.loadData v.dataset, Event.buildModel, Event.fit v.EPOCHS]
     ++ (if 0 < o.historyLen then [Event.plotHistory] else [])
     ++ [Event.evaluate Target.test, Event.predict Target.test]
     ++ ClassifierExperiment.plot_multi_predictions v.saveAssets "First 15 Image Results"
     ++ ClassifierExperiment.print_dict v.saveAssets "Test Images" testDict
     ++ [Event.loadCustomImages, Event.predict Target.custom, Event.evaluate Target.custom]
     ++ ClassifierExperiment.plot_multi_predictions v.saveAssets "Custom Image Results"
     ++ ClassifierExperiment.print_dict v.saveAssets "Custom Images" customDict,
   (testDict, customDict))

/-- Python exceptions the repository's own code can raise. -/
inductive PyError where
  | typeError (msg : String)
  | keyError (k : String)

/-- Whether an `Except` result is a success. -/
def isOkB {ε α : Type} : Except ε α → Bool
  | Except.ok _ => true
  | Except.error _ => false

/-- A layer of the ad-hoc prediction model built inside
`TextClassifierOperator.use`. -/
inductive Layer where
  | fromVal (v : PyVal)
  | baseModel
  | activ (name : String)

/-- Steps `TextClassifierOperator.use` performs after its config subscripts
succeed. -/
inductive UseEv where
  | sequentialBuilt
  | compiled
  | predicted

/-- The opaque trained model handle together with the framework entry points
the operator forwards to: `model.evaluate` on a dataset, and `predict` on the
composite model built inside `use`. -/
structure MOracle (DS Input Pred : Type) where
  evalResult : DS → ℚ × ℚ
  predictResult : List Layer → Input → Pred

/-- `TextClassifierOperator.evaluate` (text_classifier.py, lines 141-152):
destructure the params triple, call the framework's evaluate on the test
dataset and return the (loss, accuracy) pair unchanged. -/
def TextClassifierOperator.evaluate {DS I P : Type} (o : MOracle DS I P)
    (params : DS × DS × DS) : ℚ × ℚ :=
  let test_ds := params.2.2
  o.evalResult test_ds

/-- `TextClassifierOperator.use` (lines 154-166): subscript the `config`
parameter (default `None`) for the vectorize layer, build the composite
sequential model, compile it, and return the framework's predictions
unchanged.  Subscripting `None` raises a TypeError and a missing key raises a
KeyError, both before any prediction is made. -/
def TextClassifierOperator.use {DS I P : Type} (o : MOracle DS I P) (input_data : I)
    (config : Option Dict := Option.none) : List UseEv × Except PyError P :=
  match config with
  | Option.none =>
      ([], Except.error (PyError.typeError "NoneType is not subscriptable"))
  | some cfg =>
      match alookup cfg "vectorize_layer" with
      | Option.none => ([], Except.error (PyError.keyError "vectorize_layer"))
      | some vl =>
          let raw_process_model := [Layer.fromVal vl, Layer.baseModel, Layer.activ "sigmoid"]
          ([UseEv.sequentialBuilt, UseEv.compiled, UseEv.predicted],
           Except.ok (o.predictResult raw_process_model input_data))

/-- The checkpoint callback built by `TextClassifierTrainer._train_tf_model`
(lines 110-113). -/
structure CheckpointCfg where
  filepath : PyVal
  save_weights_only : Bool
  save_best_only : Bool
  verbose : Int

/-- The arguments `_train_tf_model` passes to the framework's `model.fit`
(lines 115-120). -/
structure FitCall where
  epochs : PyVal
  validationData : Bool
  callbacks : List CheckpointCfg

/-- `TextClassifierTrainer._train_tf_model` (lines 104-121): read the
checkpoint directory and epoch count from the stored config, build the
checkpoint callback (weights only, not only on improvement) and call the
framework's fit with the training set, the validation set, the epoch count and
that callback. -/
def TextClassifierTrainer.train_tf_model (defn : Dict) : Option FitCall :=
  match alookup defn "config" with
  | some (PyVal.dict cfg) =>
      match alookup cfg "checkpoint_dir", alookup cfg "EPOCHS" with
      | some cp, some e => some ⟨e, true, [⟨cp, true, false, 1⟩]⟩
      | _, _ => Option.none
  | _ => Option.none

/-- `TextClassifierOperator.__save_plot` (lines 208-216) over a file-system
state listing the existing directories: create the asset directory when it
does not exist, then save the figure; the result of the savefig call is
propagated unchanged. -/
def TextClassifierOperator.save_plot (dirs : List String) (asset_dir plot_name : String)
    (savefig_result : Except PyError Unit) :
    List String × List Event × Except PyError Unit :=
  if asset_dir ∈ dirs then
    (dirs, [Event.savefig plot_name], savefig_result)
  else
    (dirs ++ [asset_dir], [Event.makedirs asset_dir, Event.savefig plot_name], savefig_result)

/-- Modelled from the spec: the external framework's training loop is not part
of this repository; per the glossary an epoch is one full pass of the training
loop over the dataset, so `fit` with `n` epochs performs the per-epoch pass `n`
times. -/
def frameworkFit {α : Type} : Nat → (α → α) → α → α
  | 0, _, s => s
  | n + 1, pass, s => frameworkFit n pass (pass s)

/-- `num_rows` of `ClassifierExperiment.__plot_multi_predictions` (line 169):
`math.ceil(num_images / 3)`, which for naturals is `(num_images + 2) / 3`. -/
def num_rows (num_images : Nat) : Nat := (num_images + 2) / 3

/-- `num_cols` of `__plot_multi_predictions` (line 170). -/
def num_cols : Nat := 3

/-- The view extracted from the default image-classifier configuration. -/
def imgDefaultView : ImgCfgView :=
  ⟨10, PyVal.obj "tf.keras.datasets.fashion_mnist" [],
   [PyVal.int 0, PyVal.int 8, PyVal.int 8, PyVal.int 3, PyVal.int 2], false⟩

/-- A concrete evaluation oracle with a nonempty training history. -/
def oracle0 : ImageEvalOracle := ⟨0, 0, 0, 0, 1⟩

/-- A concrete model oracle over natural-number datasets and predictions. -/
def mo0 : MOracle Nat Nat Nat := ⟨fun _ => (0, 0), fun _ _ => 0⟩

/-- A concrete operator config containing a vectorize layer. -/
def cfg0 : Dict := [("vectorize_layer", PyVal.obj "TextVectorization" [])]

/-- Looking a key up in a Python dictionary merge finds the user entry when
present and falls back to the default entry otherwise. -/
theorem alookup_pyMerge {α : Type} (d u : List (String × α)) (k : String) :
    alookup (pyMerge d u) k = optOr (alookup u k) (alookup d k) := by
  induction d with
  | nil =>
      simp only [pyMerge, List.filter_nil, List.nil_append, alookup]
      cases alookup u k <;> simp [optOr]
  | cons hd tl ih =>
      obtain ⟨a, b⟩ := hd
      by_cases hk : a = k
      · subst hk
        cases hu : alookup u a with
        | none =>
            simp only [pyMerge, List.filter_cons] at *
            simp [hu, alookup, ih, optOr]
        | some w =>
            simp only [pyMerge, List.filter_cons] at *
            simp [hu, alookup, ih, optOr]
      · cases hu : alookup u a with
        | none =>
            simp only [pyMerge, List.filter_cons] at *
            simp [hu, alookup, hk, ih, optOr]
        | some w =>
            simp only [pyMerge, List.filter_cons] at *
            simp [hu, alookup, hk, ih, optOr]

/-- Left-biased choice with a sure fallback is `Option.getD`. -/
theorem optOr_some {α : Type} (a : Option α) (d : α) :
    optOr a (some d) = some (a.getD d) := by
  cases a <;> simp [optOr]

/-- C8: Configuration merging is a right-biased union: for every user-supplied
config and every key, the constructed config maps the key to the user value
when the key is present in the user config and to the built-in default value
otherwise, and constructing with an empty config yields exactly the default
configuration; for both `ClassifierExperiment.__init__` and
`TextClassifierTrainer.__init__`. -/
theorem config_merge_right_biased :
    (∀ (u : Dict) (k : String) (v : PyVal),
        (alookup u k = some v → alookup (ClassifierExperiment.init u) k = some v) ∧
        (alookup u k = Option.none →
          alookup (ClassifierExperiment.init u) k = alookup imageClassifierDefaultConfig k) ∧
        (alookup u k = some v → alookup (TextClassifierTrainer.initConfig u) k = some v) ∧
        (alookup u k = Option.none →
          alookup (TextClassifierTrainer.initConfig u) k = alookup textClassifierDefaultConfig k)) ∧
    ClassifierExperiment.init [] = imageClassifierDefaultConfig ∧
    TextClassifierTrainer.initConfig [] = textClassifierDefaultConfig := by
  refine ⟨fun u k v => ⟨?_, ?_, ?_, ?_⟩, rfl, rfl⟩ <;> intro h <;>
    simp [ClassifierExperiment.init, TextClassifierTrainer.initConfig, alookup_pyMerge, h, optOr]

/-- Witness for C8 at a concrete user config overriding `EPOCHS`. -/
theorem config_merge_right_biased_witness :
    alookup (ClassifierExperiment.init [("EPOCHS", PyVal.int 3)]) "EPOCHS"
        = some (PyVal.int 3) ∧
    alookup (ClassifierExperiment.init [("EPOCHS", PyVal.int 3)]) "labels"
        = alookup imageClassifierDefaultConfig "labels" ∧
    alookup (TextClassifierTrainer.initConfig [("EPOCHS", PyVal.int 3)]) "EPOCHS"
        = some (PyVal.int 3) ∧
    alookup (TextClassifierTrainer.initConfig [("EPOCHS", PyVal.int 3)]) "seed"
        = alookup textClassifierDefaultConfig "seed" :=
  ⟨(config_merge_right_biased.1 [("EPOCHS", PyVal.int 3)] "EPOCHS" (PyVal.int 3)).1 rfl,
   (config_merge_right_biased.1 [("EPOCHS", PyVal.int 3)] "labels" PyVal.none).2.1 rfl,
   (config_merge_right_biased.1 [("EPOCHS", PyVal.int 3)] "EPOCHS" (PyVal.int 3)).2.2.1 rfl,
   (config_merge_right_biased.1 [("EPOCHS", PyVal.int 3)] "seed" PyVal.none).2.2.2 rfl⟩

/-- C10: the prediction-grid layout arithmetic never produces an out-of-range
subplot position: for every `num_images ≥ 1` and every loop index
`i < num_images`, both subplot indices `2*i+1` and `2*i+2` are at most
`num_rows * (2 * num_cols)`. -/
theorem subplot_index_in_range (num_images i : Nat)
    (h1 : 1 ≤ num_images) (h2 : i < num_images) :
    2 * i + 1 ≤ num_rows num_images * (2 * num_cols) ∧
    2 * i + 2 ≤ num_rows num_images * (2 * num_cols) := by
  unfold num_rows num_cols
  omega

/-- Witness for C10 at the largest index of the 15-image grid. -/
theorem subplot_index_in_range_witness :
    2 * 14 + 1 ≤ num_rows 15 * (2 * num_cols) ∧
    2 * 14 + 2 ≤ num_rows 15 * (2 * num_cols) :=
  subplot_index_in_range 15 14 (by decide) (by decide)

/-- C2: the operator methods are pass-through adapters:
`TextClassifierOperator.evaluate` returns exactly the (loss, accuracy) pair the
framework's `model.evaluate` returns on the test dataset, and
`TextClassifierOperator.use` returns exactly the predictions array the
framework's predict call returns on the composite model, with no
transformation of the forwarded return values. -/
theorem text_operator_pass_through (DS I P : Type) (o : MOracle DS I P)
    (a b c : DS) (input_data : I) (cfg : Dict) (vl : PyVal) :
    TextClassifierOperator.evaluate o (a, b, c) = o.evalResult c ∧
    (alookup cfg "vectorize_layer" = some vl →
      TextClassifierOperator.use o input_data (some cfg)
        = ([UseEv.sequentialBuilt, UseEv.compiled, UseEv.predicted],
           Except.ok (o.predictResult
             [Layer.fromVal vl, Layer.baseModel, Layer.activ "sigmoid"] input_data))) := by
  refine ⟨rfl, fun h => ?_⟩
  simp [TextClassifierOperator.use, h]

/-- Witness for C2 at a concrete oracle, datasets and config. -/
theorem text_operator_pass_through_witness :
    TextClassifierOperator.evaluate mo0 (1, 2, 3) = mo0.evalResult 3 ∧
    TextClassifierOperator.use mo0 7 (some cfg0)
      = ([UseEv.sequentialBuilt, UseEv.compiled, UseEv.predicted],
         Except.ok (mo0.predictResult
           [Layer.fromVal (PyVal.obj "TextVectorization" []), Layer.baseModel,
            Layer.activ "sigmoid"] 7)) :=
  ⟨(text_operator_pass_through Nat Nat Nat mo0 1 2 3 7 cfg0
      (PyVal.obj "TextVectorization" [])).1,
   (text_operator_pass_through Nat Nat Nat mo0 1 2 3 7 cfg0
      (PyVal.obj "TextVectorization" [])).2 rfl⟩

/-- C9: calling `TextClassifierOperator.use` without the config argument always
fails before any prediction is made (the `None` default is subscripted), and a
call with a config succeeds exactly when the config contains the
`vectorize_layer` key. -/
theorem use_requires_vectorize_layer_config (DS I P : Type) (o : MOracle DS I P)
    (input_data : I) :
    TextClassifierOperator.use o input_data Option.none
        = ([], Except.error (PyError.typeError "NoneType is not subscriptable")) ∧
    ∀ cfg : Dict,
      isOkB (TextClassifierOperator.use o input_data (some cfg)).2
        = (alookup cfg "vectorize_layer").isSome := by
  refine ⟨rfl, fun cfg => ?_⟩
  cases h : alookup cfg "vectorize_layer" <;>
    simp [TextClassifierOperator.use, h, isOkB]

/-- The checkpoint directory stored by `TextClassifierTrainer.__init__` is the
user-supplied one, or the built-in default when omitted. -/
theorem initConfig_checkpoint_dir (u : Dict) :
    alookup (TextClassifierTrainer.initConfig u) "checkpoint_dir"
      = some ((alookup u "checkpoint_dir").getD
          (PyVal.str "./text_binary_classifier_experiment/cache/ckpt/")) := by
  rw [TextClassifierTrainer.initConfig, alookup_pyMerge,
    show alookup textClassifierDefaultConfig "checkpoint_dir"
        = some (PyVal.str "./text_binary_classifier_experiment/cache/ckpt/") from rfl,
    optOr_some]

/-- The epoch count stored by `TextClassifierTrainer.__init__` is the
user-supplied one, or 10 when omitted. -/
theorem initConfig_EPOCHS (u : Dict) :
    alookup (TextClassifierTrainer.initConfig u) "EPOCHS"
      = some ((alookup u "EPOCHS").getD (PyVal.int 10)) := by
  rw [TextClassifierTrainer.initConfig, alookup_pyMerge,
    show alookup textClassifierDefaultConfig "EPOCHS" = some (PyVal.int 10) from rfl,
    optOr_some]

/-- C5: for every training run of `TextClassifierTrainer._train_tf_model`, the
checkpoint callback passed to fit saves weights only (not the full model), to
the configured checkpoint directory, with `save_best_only` false (so a
checkpoint is written on every epoch, not only on improvement). -/
theorem checkpoint_callback_config (dd : PyVal) (u : Dict) :
    TextClassifierTrainer.train_tf_model (TextClassifierTrainer.init dd u)
      = some ⟨(alookup u "EPOCHS").getD (PyVal.int 10), true,
              [⟨(alookup u "checkpoint_dir").getD
                  (PyVal.str "./text_binary_classifier_experiment/cache/ckpt/"),
                true, false, 1⟩]⟩ := by
  have hc : alookup (TextClassifierTrainer.init dd u) "config"
      = some (PyVal.dict (TextClassifierTrainer.initConfig u)) := by
    simp [TextClassifierTrainer.init, alookup]
  simp [TextClassifierTrainer.train_tf_model, hc, initConfig_checkpoint_dir, initConfig_EPOCHS]

/-- The `fit` events of the `_execute` helpers are empty. -/
theorem filter_fit_print_plot (sa : Bool) (t : String) :
    (ClassifierExperiment.print_plot sa t).filter isFitEvent = [] := by
  cases sa <;> rfl

/-- The reporting helper produces no `fit` event. -/
theorem filter_fit_print_dict (sa : Bool) (t : String) (d : ResDict) :
    (ClassifierExperiment.print_dict sa t d).filter isFitEvent = [] := by
  cases sa <;> rfl

/-- The prediction-grid helper produces no `fit` event. -/
theorem filter_fit_plot_multi (sa : Bool) (t : String) :
    (ClassifierExperiment.plot_multi_predictions sa t).filter isFitEvent = [] := by
  cases sa <;> rfl

/-- Extracting the view of a configuration pins the epoch count to the
config's `EPOCHS` entry. -/
theorem viewOf_EPOCHS (cfg : Dict) (v : ImgCfgView) (h : viewOf cfg = some v) :
    (alookup cfg "EPOCHS").bind asInt = some v.EPOCHS := by
  simp only [viewOf, Option.bind_eq_some] at h
  obtain ⟨e, he, ds, hds, ls, hls, sa, hsa, hv⟩ := h
  cases hv' : v
  simp [hv'] at hv
  obtain ⟨h1, h2, h3, h4⟩ := hv
  subst h1
  obtain ⟨a, ha, hae⟩ := he
  rw [ha]
  simpa using hae

/-- The modelled framework fit performs exactly one pass per epoch. -/
theorem frameworkFit_eq_iterate {α : Type} (pass : α → α) (n : Nat) (s : α) :
    frameworkFit n pass s = pass^[n] s := by
  induction n generalizing s with
  | zero => rfl
  | succ n ih => rw [frameworkFit, ih, Function.iterate_succ_apply]

/-- C4: the configured epoch count is forwarded unchanged to the framework: for
any configuration given to `ClassifierExperiment`, the trace of `_execute`
contains exactly one fit call whose epochs argument is the configured `EPOCHS`
(or the default 10 when omitted); for any configuration given to
`TextClassifierTrainer`, the epochs argument of the fit call is the configured
`EPOCHS` (or 10); and the modelled framework fit runs one full pass of the
training loop per epoch. -/
theorem epochs_forwarded_to_fit :
    (∀ (u : Dict) (v : ImgCfgView) (o : ImageEvalOracle),
        viewOf (ClassifierExperiment.init u) = some v →
        PyVal.int v.EPOCHS = (alookup u "EPOCHS").getD (PyVal.int 10) ∧
        (ClassifierExperiment.execute v o).1.filter isFitEvent = [Event.fit v.EPOCHS]) ∧
    (∀ (dd : PyVal) (u : Dict),
        (TextClassifierTrainer.train_tf_model (TextClassifierTrainer.init dd u)).map
            FitCall.epochs
          = some ((alookup u "EPOCHS").getD (PyVal.int 10))) ∧
    (∀ (α : Type) (pass : α → α) (n : Nat) (s : α), frameworkFit n pass s = pass^[n] s) := by
  refine ⟨fun u v o h => ⟨?_, ?_⟩, fun dd u => ?_, fun α pass n s => frameworkFit_eq_iterate pass n s⟩
  · have hE : alookup (ClassifierExperiment.init u) "EPOCHS"
        = some ((alookup u "EPOCHS").getD (PyVal.int 10)) := by
      rw [ClassifierExperiment.init, alookup_pyMerge,
        show alookup imageClassifierDefaultConfig "EPOCHS" = some (PyVal.int 10) from rfl,
        optOr_some]
    have hv := viewOf_EPOCHS _ _ h
    rw [hE] at hv
    cases hu : alookup u "EPOCHS" with
    | none =>
        rw [hu] at hv
        simp [asInt] at hv
        simp [hu, ← hv]
    | some w =>
        rw [hu] at hv
        cases w <;> simp [asInt] at hv <;> simp [hu, hv]
  · by_cases h0 : 0 < o.historyLen <;>
      simp [ClassifierExperiment.execute, List.filter_append, h0,
        filter_fit_print_plot, filter_fit_print_dict, filter_fit_plot_multi,
        isFitEvent, List.filter]
  · rw [checkpoint_callback_config]
    rfl

/-- Witness for C4 at the empty user configuration. -/
theorem epochs_forwarded_to_fit_witness :
    PyVal.int imgDefaultView.EPOCHS = (alookup ([] : Dict) "EPOCHS").getD (PyVal.int 10) ∧
    (ClassifierExperiment.execute imgDefaultView oracle0).1.filter isFitEvent
        = [Event.fit imgDefaultView.EPOCHS] :=
  epochs_forwarded_to_fit.1 [] imgDefaultView oracle0 rfl

/-- C3 counterexample: `TextClassifierOperator.__save_plot`, run when the asset
directory does not exist, performs a corrective file-system action (it creates
the missing directory with makedirs before saving), contradicting the claim
that no operation performs a corrective action before a file-system call. -/
theorem save_plot_creates_missing_dir :
    (TextClassifierOperator.save_plot []
        "./text_binary_classifier_experiment/cache/generated_assets/" "plot.png"
        (Except.ok ())).2.1.any isCorrective = true := rfl

/-- C3 amended: no retry or partial-failure handling exists and the savefig
result is propagated unchanged, but `TextClassifierOperator.__save_plot`
performs exactly one corrective action — creating the asset directory when it
is missing — while `ClassifierExperiment.__print_plot` performs none. -/
theorem error_handling_amended (dirs : List String) (asset_dir plot_name : String)
    (r : Except PyError Unit) :
    ((TextClassifierOperator.save_plot dirs asset_dir plot_name r).2.1.filter isCorrective
        = if asset_dir ∈ dirs then [] else [Event.makedirs asset_dir]) ∧
    (TextClassifierOperator.save_plot dirs asset_dir plot_name r).2.2 = r ∧
    ∀ (sa : Bool) (t : String),
      (ClassifierExperiment.print_plot sa t).all (fun e => !isCorrective e) = true := by
  refine ⟨?_, ?_, fun sa t => ?_⟩
  · by_cases h : asset_dir ∈ dirs <;>
      simp [TextClassifierOperator.save_plot, h, isCorrective]
  · by_cases h : asset_dir ∈ dirs <;> simp [TextClassifierOperator.save_plot, h]
  · cases sa <;> rfl

/-- The accuracy metric is nonnegative. -/
theorem accuracyOf_nonneg (l : List Bool) : 0 ≤ accuracyOf l := by
  unfold accuracyOf
  positivity

/-- The accuracy metric is at most one. -/
theorem accuracyOf_le_one (l : List Bool) : accuracyOf l ≤ 1 := by
  unfold accuracyOf
  rcases Nat.eq_zero_or_pos l.length with h | h
  · simp [h]
  · rw [div_le_one (by exact_mod_cast h)]
    exact_mod_cast List.count_le_length true l

/-- C1: every run of `ClassifierExperiment._execute` returns a pair of result
dictionaries holding exactly the loss and accuracy scalars reported by the
framework's evaluate calls together with the configured epoch count; the whole
training phase (dataset load, model build, fit) precedes everything else in
the trace, and the only events that receive a result dictionary are the
reporting events (console printing and CSV dumping) — the dictionaries are
never fed back into training or model state. -/
theorem execute_result_dicts_spec (v : ImgCfgView) (o : ImageEvalOracle) :
    (ClassifierExperiment.execute v o).2.1
        = [("EPOCHS", RVal.int v.EPOCHS), ("loss", RVal.num o.testLoss),
           ("accuracy", RVal.num o.testAcc)] ∧
    (ClassifierExperiment.execute v o).2.2
        = [("EPOCHS", RVal.int v.EPOCHS), ("loss", RVal.num o.customLoss),
           ("accuracy", RVal.num o.customAcc)] ∧
    (∃ rest, (ClassifierExperiment.execute v o).1
        = Event.loadData v.dataset :: Event.buildModel :: Event.fit v.EPOCHS :: rest ∧
        rest.all (fun e => !isTrainingEvent e) = true) ∧
    ((ClassifierExperiment.execute v o).1.filter (fun e => !(eventDicts e).isEmpty)
        = ClassifierExperiment.print_dict v.saveAssets "Test Images"
            (ClassifierExperiment.execute v o).2.1
          ++ ClassifierExperiment.print_dict v.saveAssets "Custom Images"
            (ClassifierExperiment.execute v o).2.2) := by
  refine ⟨rfl, rfl, ⟨_, rfl, ?_⟩, ?_⟩ <;>
    by_cases h0 : 0 < o.historyLen <;> cases hsa : v.saveAssets <;>
      simp [ClassifierExperiment.execute, ClassifierExperiment.plot_multi_predictions,
        ClassifierExperiment.print_plot, ClassifierExperiment.print_dict, h0, hsa,
        isTrainingEvent, eventDicts, mkResultDict]

/-- C6 counterexample: the trace of `_execute` does not visit the four steps of
the claim in order — with a nonempty training history the loss/accuracy plot
(a plot/save step) is drawn before the first evaluate call (a
fit/evaluate/predict step), so a later step precedes an earlier one. -/
theorem steps_not_strictly_ordered :
    stepsSortedB (ClassifierExperiment.execute imgDefaultView oracle0).1 = false := rfl

/-- C6 amended: every experiment run loads the dataset first, then builds the
model, then trains it; no training step recurs afterwards, so evaluation and
prediction never precede training; plotting and saving are interleaved with
the evaluate/predict calls rather than strictly after all of them. -/
theorem execute_phase_order (v : ImgCfgView) (o : ImageEvalOracle) :
    ∃ rest, (ClassifierExperiment.execute v o).1
        = Event.loadData v.dataset :: Event.buildModel :: Event.fit v.EPOCHS :: rest ∧
      rest.all (fun e => !isTrainingEvent e && decide (2 ≤ stepClass e)) = true := by
  refine ⟨_, rfl, ?_⟩
  by_cases h0 : 0 < o.historyLen <;> cases hsa : v.saveAssets <;>
    simp [ClassifierExperiment.execute, ClassifierExperiment.plot_multi_predictions,
      ClassifierExperiment.print_plot, ClassifierExperiment.print_dict, h0, hsa,
      isTrainingEvent, stepClass]

/-- C7: for every completed experiment run whose evaluate calls report the
framework's accuracy metric (the proportion of correct predictions), the
accuracy value stored in each result dictionary lies in the closed interval
from 0 to 1. -/
theorem reported_accuracy_in_unit_interval (v : ImgCfgView) (tc cc : List Bool)
    (lt lc : ℚ) (h : Nat) :
    alookup (ClassifierExperiment.execute v (oracleOf tc cc lt lc h)).2.1 "accuracy"
        = some (RVal.num (accuracyOf tc)) ∧
    alookup (ClassifierExperiment.execute v (oracleOf tc cc lt lc h)).2.2 "accuracy"
        = some (RVal.num (accuracyOf cc)) ∧
    0 ≤ accuracyOf tc ∧ accuracyOf tc ≤ 1 ∧
    0 ≤ accuracyOf cc ∧ accuracyOf cc ≤ 1 :=
  ⟨rfl, rfl, accuracyOf_nonneg tc, accuracyOf_le_one tc,
   accuracyOf_nonneg cc, accuracyOf_le_one cc⟩
